import Mathlib

/-!
Verification model of the production edge server in `server/index.cjs`
(lux-quiz repository): CSP header middleware, CSP violation report intake,
in-memory violation aggregation with hourly flush, rate limiting of the
report endpoint, and static-asset cache headers.

JavaScript values arriving as parsed JSON bodies are modelled by the
inductive type `Json`; JavaScript truthiness and `typeof`-checks are
modelled explicitly so that the validation logic of the source is embedded
faithfully.
-/

/-- JSON values as produced by the body parser (`express.json`). -/
inductive Json where
  | null
  | bool (b : Bool)
  | num (n : Int)
  | str (s : String)
  | arr (xs : List Json)
  | obj (kvs : List (String × Json))

mutual

/-- Structural equality on JSON values (used for map keys; JS `Map` uses
SameValueZero, which coincides with structural equality on primitives). -/
def Json.beq : Json → Json → Bool
  | .null, .null => true
  | .bool a, .bool b => a == b
  | .num a, .num b => a == b
  | .str a, .str b => a == b
  | .arr as, .arr bs => Json.beqArr as bs
  | .obj as, .obj bs => Json.beqObj as bs
  | _, _ => false

def Json.beqArr : List Json → List Json → Bool
  | [], [] => true
  | a :: as, b :: bs => Json.beq a b && Json.beqArr as bs
  | _, _ => false

def Json.beqObj : List (String × Json) → List (String × Json) → Bool
  | [], [] => true
  | (k1, v1) :: as, (k2, v2) :: bs => k1 == k2 && Json.beq v1 v2 && Json.beqObj as bs
  | _, _ => false

end

/-- Property lookup on an object's key/value list: first binding wins. -/
def objGet (k : String) : List (String × Json) → Option Json
  | [] => none
  | (k2, v) :: rest => if k2 == k then some v else objGet k rest

/-- JS property access `j[k]`: `some v` when `j` is an object with the
property, `none` (undefined) otherwise. -/
def jsGet (j : Json) (k : String) : Option Json :=
  match j with
  | .obj kvs => objGet k kvs
  | _ => none

/-- JS truthiness of a JSON value: `null`, `false`, `0` and `""` are falsy;
every object and array is truthy. -/
def jsTruthy : Json → Bool
  | .null => false
  | .bool b => b
  | .num n => n != 0
  | .str s => s != ""
  | .arr _ => true
  | .obj _ => true

/-- Whether `typeof v === "object"` holds in JS for a JSON value: true for
objects, arrays and `null`. -/
def jsTypeofIsObject : Json → Bool
  | .null => true
  | .arr _ => true
  | .obj _ => true
  | _ => false

/-- `body[k] && typeof body[k] === "object"`: the property exists, is
truthy, and has JS type object. -/
def truthyObjectProp (body : Json) (k : String) : Bool :=
  match jsGet body k with
  | some v => jsTruthy v && jsTypeofIsObject v
  | none => false

/-- `validateCSPReport` from `server/index.cjs`: the body is truthy and has
a truthy object-typed property under `csp-report` or `csp_report`. -/
def validateCSPReport (body : Json) : Bool :=
  jsTruthy body &&
    (truthyObjectProp body "csp-report" || truthyObjectProp body "csp_report")

/-- `j[k]` when present and truthy, else `none`; building block for the JS
`||` fallback chains in `logViolation`. -/
def jsGetTruthy (j : Json) (k : String) : Option Json :=
  match jsGet j k with
  | some v => if jsTruthy v then some v else none
  | none => none

/-- `violation["csp-report"] || violation["csp_report"] || violation` from
`logViolation`. -/
def selectReport (violation : Json) : Json :=
  (jsGetTruthy violation "csp-report").getD
    ((jsGetTruthy violation "csp_report").getD violation)

/-- `v?.["violated-directive"] || "unknown"` from `logViolation`: the
directive recorded for a violation report. -/
def directiveOf (violation : Json) : Json :=
  (jsGetTruthy (selectReport violation) "violated-directive").getD
    (Json.str "unknown")

/-- `Map.get` on the by-directive counter map (association list in
insertion order, as JS `Map` iterates). -/
def mapGet (k : Json) : List (Json × Nat) → Option Nat
  | [] => none
  | (k2, v) :: rest => if Json.beq k k2 then some v else mapGet k rest

/-- `Map.set` on the by-directive counter map: update the first binding in
place (JS `Map.set` keeps the original key object), else append. -/
def mapSet (k : Json) (v : Nat) : List (Json × Nat) → List (Json × Nat)
  | [] => [(k, v)]
  | (k2, v2) :: rest =>
      if Json.beq k k2 then (k2, v) :: rest else (k2, v2) :: mapSet k v rest

/-- The Violation Aggregate `violationStats` from `server/index.cjs`:
process-wide total and per-directive counters. -/
structure ViolationStats where
  total : Nat
  byDirective : List (Json × Nat)

/-- Initial aggregate: `{ total: 0, byDirective: new Map() }`. -/
def violationStats0 : ViolationStats := ⟨0, []⟩

/-- `logViolation` from `server/index.cjs`: increments the total and the
selected directive's counter. -/
def logViolation (violation : Json) (s : ViolationStats) : ViolationStats :=
  let directive := directiveOf violation
  { total := s.total + 1
    byDirective :=
      mapSet directive ((mapGet directive s.byDirective).getD 0 + 1)
        s.byDirective }

/-- An HTTP response of the report endpoint: status code and optional JSON
body. -/
structure CspResponse where
  status : Nat
  body : Option Json

/-- The `POST /__cspreport__` handler body (after the rate limiter): 400
with an error payload on invalid report, else record the violation and
answer 204 with no body. -/
def handleCspReport (body : Json) (s : ViolationStats) :
    CspResponse × ViolationStats :=
  if validateCSPReport body = false then
    (⟨400, some (Json.obj [("error", Json.str "invalid csp report")])⟩, s)
  else
    (⟨204, none⟩, logViolation body s)

/-- The summary object emitted by the hourly flush when violations were
recorded: the total and the per-directive breakdown. -/
structure FlushSummary where
  total : Nat
  byDirective : List (Json × Nat)

/-- The hourly `setInterval` callback from `server/index.cjs`: when the
total is positive, emit one summary and reset both counters; otherwise do
nothing. Returns the new aggregate and the emitted summary, if any. -/
def flushViolationStats (s : ViolationStats) :
    ViolationStats × Option FlushSummary :=
  if s.total > 0 then
    (violationStats0, some ⟨s.total, s.byDirective⟩)
  else
    (s, none)

/-- Flush interval of the summary timer: one hour in milliseconds
(`60 * 60 * 1000`). -/
def flushIntervalMs : Nat := 60 * 60 * 1000

/-- Response headers as a name/value association list (Node keeps at most
one value per header name; `setHeader` overwrites, `removeHeader`
deletes). -/
abbrev HeaderMap : Type := List (String × String)

/-- Node `res.removeHeader(name)`: drop every binding of the name. -/
def removeHeader (name : String) (h : HeaderMap) : HeaderMap :=
  List.filter (fun p => p.1 != name) h

/-- Node `res.setHeader(name, value)`: overwrite the header with a single
binding. -/
def setHeader (name value : String) (h : HeaderMap) : HeaderMap :=
  removeHeader name h ++ [(name, value)]

/-- The current value of a header, if set. -/
def lookupHeader (name : String) (h : HeaderMap) : Option String :=
  (List.find? (fun p => p.1 == name) h).map Prod.snd

/-- How many bindings of a header name are present. -/
def countHeader (name : String) (h : HeaderMap) : Nat :=
  (List.filter (fun p => p.1 == name) h).length

/-- The `cspDirectives` array from the CSP middleware in
`server/index.cjs`, in source order. -/
def cspDirectives : List String :=
  [ "default-src 'self'"
  , "base-uri 'self'"
  , "object-src 'none'"
  , "img-src 'self' data: blob:"
  , "font-src 'self' data:"
  , "style-src 'self' 'unsafe-inline'"
  , "script-src 'self'"
  , "connect-src 'self'"
  , "worker-src 'self' blob:"
  , "media-src 'self' blob:"
  , "form-action 'self'"
  , "frame-ancestors 'none'"
  , "manifest-src 'self'"
  , "upgrade-insecure-requests"
  , "child-src 'none'"
  , "trusted-types vue"
  , "report-uri /__cspreport__"
  ]

/-- `cspDirectives.join("; ")`: the policy string the middleware sets. -/
def cspPolicy : String := String.intercalate "; " cspDirectives

/-- The CSP middleware from `server/index.cjs`: remove any
`Content-Security-Policy-Report-Only` header, then set
`Content-Security-Policy` to the joined policy. -/
def applyCspMiddleware (h : HeaderMap) : HeaderMap :=
  setHeader "Content-Security-Policy" cspPolicy
    (removeHeader "Content-Security-Policy-Report-Only" h)

/-- The directive names the specification lists for the policy (written
from the spec's fixed ordered list, for comparison with `cspDirectives`
from the source). -/
def specDirectiveNames : List String :=
  [ "default-src", "base-uri", "object-src", "img-src", "font-src"
  , "style-src", "script-src", "connect-src", "worker-src", "media-src"
  , "form-action", "frame-ancestors", "manifest-src"
  , "upgrade-insecure-requests", "trusted-types", "report-uri" ]

/-- The directive name of a policy entry: the token before the first
space. -/
def directiveName (s : String) : String :=
  String.mk (s.data.takeWhile (fun c => c != ' '))

/-- `path.basename`: the final path component (text after the last
slash). -/
def fileBase (p : String) : String :=
  String.mk (p.data.reverse.takeWhile (fun c => c != '/')).reverse

/-- Modelled from the spec: `express.static` with `maxAge: "1d"` marks
assets cacheable for one day (`Cache-Control: public, max-age=86400`); the
static-serving internals live in the express dependency, not in this
repository. -/
def cacheControlOneDay : String := "public, max-age=86400"

/-- Headers a static-asset response carries: the one-day cache header from
the `maxAge` option, overridden by the `setHeaders` callback from
`server/index.cjs` when the served file is `index.html` (no-store plus
legacy Pragma/Expires). -/
def staticHeaders (filePath : String) : HeaderMap :=
  let h := setHeader "Cache-Control" cacheControlOneDay []
  if fileBase filePath == "index.html" then
    setHeader "Expires" "0"
      (setHeader "Pragma" "no-cache"
        (setHeader "Cache-Control"
          "no-store, no-cache, must-revalidate, proxy-revalidate" h))
  else h

/-- `windowMs` of `cspLimiter`: 15 minutes in milliseconds. -/
def cspLimiterWindowMs : Nat := 15 * 60 * 1000

/-- `max` of `cspLimiter`: 100 requests per client per window. -/
def cspLimiterMax : Nat := 100

/-- Modelled from the spec: the fixed-window rate limiter state for one
client (the `express-rate-limit` implementation is a dependency, not code
of this repository; the spec describes a fixed 15-minute window admitting
at most 100 reports per client). -/
structure LimiterClientState where
  windowStart : Nat
  count : Nat

/-- A client that has not reported yet in the current process. -/
def limiterInit : LimiterClientState := ⟨0, 0⟩

/-- Modelled from the spec: one request from the client at time `t`
(milliseconds). When the window has elapsed a fresh window starts; the
request is admitted exactly when the window's count is below the quota. -/
def limiterAdmit (s : LimiterClientState) (t : Nat) :
    LimiterClientState × Bool :=
  let s2 := if s.windowStart + cspLimiterWindowMs ≤ t then ⟨t, 0⟩ else s
  if s2.count < cspLimiterMax then (⟨s2.windowStart, s2.count + 1⟩, true)
  else (s2, false)

/-- `n` requests from the same client, all at time `t`, starting from the
initial state. -/
def limiterRun (t : Nat) : Nat → LimiterClientState
  | 0 => limiterInit
  | n + 1 => (limiterAdmit (limiterRun t n) t).1

/-- Modelled from the spec: with `standardHeaders: true` and
`legacyHeaders: false`, a rejected request's response carries the standard
rate-limit headers. -/
def rateLimitRejectionHeaders : List String :=
  ["RateLimit-Limit", "RateLimit-Remaining", "RateLimit-Reset"]

/-- The report shape named by the specification (written from the spec's
words, for comparison with `validateCSPReport` from the source): the body
is a JSON object carrying a nested JSON object under `csp-report` or
`csp_report`. -/
def hasNestedReportObject : Json → Bool
  | .obj kvs =>
      (match objGet "csp-report" kvs with
       | some (Json.obj _) => true
       | _ => false) ||
      (match objGet "csp_report" kvs with
       | some (Json.obj _) => true
       | _ => false)
  | _ => false

/-- Aggregate operations a run of the server performs on the Violation
Aggregate: recording one violation, or one firing of the flush timer. -/
inductive ServerOp where
  | record (violation : Json)
  | flushTick

/-- Effect of one aggregate operation on the Violation Aggregate. -/
def stepOp (s : ViolationStats) (op : ServerOp) : ViolationStats :=
  match op with
  | .record v => logViolation v s
  | .flushTick => (flushViolationStats s).1

/-- Sum of all per-directive counters. -/
def sumCounts (m : List (Json × Nat)) : Nat := (m.map Prod.snd).sum

/-- The spec's example report body:
`\x7b"csp-report":\x7b"violated-directive":"script-src"\x7d\x7d`. -/
def bodyScriptSrc : Json :=
  Json.obj
    [("csp-report", Json.obj [("violated-directive", Json.str "script-src")])]

/-- A body whose `csp-report` value is an array: not a nested object, yet
accepted by `validateCSPReport` (JS `typeof [] === "object"`). -/
def cspArrayBody : Json := Json.obj [("csp-report", Json.arr [])]

/-- The spec's example invalid body `\x7b"foo":"bar"\x7d`. -/
def fooBarBody : Json := Json.obj [("foo", Json.str "bar")]

/-- A report body with a nested object that has no `violated-directive`
field. -/
def emptyReportBody : Json := Json.obj [("csp-report", Json.obj [])]

mutual

theorem Json.beq_refl : (j : Json) → Json.beq j j = true
  | .null => rfl
  | .bool _ => by simp [Json.beq]
  | .num _ => by simp [Json.beq]
  | .str _ => by simp [Json.beq]
  | .arr xs => by simpa [Json.beq] using Json.beqArr_refl xs
  | .obj kvs => by simpa [Json.beq] using Json.beqObj_refl kvs

theorem Json.beqArr_refl : (xs : List Json) → Json.beqArr xs xs = true
  | [] => rfl
  | x :: xs => by
      simp only [Json.beqArr, Bool.and_eq_true]
      exact ⟨Json.beq_refl x, Json.beqArr_refl xs⟩

theorem Json.beqObj_refl :
    (kvs : List (String × Json)) → Json.beqObj kvs kvs = true
  | [] => rfl
  | (_, v) :: kvs => by
      simp only [Json.beqObj, Bool.and_eq_true]
      exact ⟨⟨by simp, Json.beq_refl v⟩, Json.beqObj_refl kvs⟩

end

theorem mapGet_mapSet_self (k : Json) (v : Nat) :
    ∀ m : List (Json × Nat), mapGet k (mapSet k v m) = some v
  | [] => by simp [mapSet, mapGet, Json.beq_refl]
  | (k2, v2) :: rest => by
      by_cases hb : Json.beq k k2 = true
      · simp [mapSet, mapGet, hb]
      · simp only [Bool.not_eq_true] at hb
        simp [mapSet, mapGet, hb, mapGet_mapSet_self k v rest]

theorem sumCounts_record (k : Json) :
    ∀ m : List (Json × Nat),
      sumCounts (mapSet k ((mapGet k m).getD 0 + 1) m) = sumCounts m + 1
  | [] => by simp [mapSet, mapGet, sumCounts]
  | (k2, v2) :: rest => by
      by_cases hb : Json.beq k k2 = true
      · simp [mapSet, mapGet, hb, sumCounts]
        omega
      · simp only [Bool.not_eq_true] at hb
        have ih := sumCounts_record k rest
        simp [mapSet, mapGet, hb, sumCounts] at ih ⊢
        omega


theorem validateCSPReport_of_nested (body : Json)
    (h : hasNestedReportObject body = true) :
    validateCSPReport body = true := by
  cases body with
  | null => simp [hasNestedReportObject] at h
  | bool b => simp [hasNestedReportObject] at h
  | num n => simp [hasNestedReportObject] at h
  | str s => simp [hasNestedReportObject] at h
  | arr xs => simp [hasNestedReportObject] at h
  | obj kvs =>
    simp only [hasNestedReportObject] at h
    simp only [Bool.or_eq_true] at h
    simp only [validateCSPReport, jsTruthy, Bool.true_and, truthyObjectProp,
      jsGet, Bool.or_eq_true]
    rcases h with h | h
    · left
      cases hg : objGet "csp-report" kvs with
      | none => rw [hg] at h; simp at h
      | some v =>
        rw [hg] at h
        cases v <;> simp_all [jsTruthy, jsTypeofIsObject]
    · right
      cases hg : objGet "csp_report" kvs with
      | none => rw [hg] at h; simp at h
      | some v =>
        rw [hg] at h
        cases v <;> simp_all [jsTruthy, jsTypeofIsObject]

theorem countHeader_append (n : String) (a b : HeaderMap) :
    countHeader n (a ++ b) = countHeader n a + countHeader n b := by
  simp [countHeader, List.filter_append]

theorem countHeader_removeHeader_self (n : String) :
    ∀ h : HeaderMap, countHeader n (removeHeader n h) = 0
  | [] => rfl
  | (k, v) :: rest => by
      have ih := countHeader_removeHeader_self n rest
      by_cases hk : (k == n) = true
      · simp_all [removeHeader, countHeader, bne]
      · simp only [Bool.not_eq_true] at hk
        simp_all [removeHeader, countHeader, bne]

theorem countHeader_removeHeader_ne (n m : String) (hnm : (m == n) = false) :
    ∀ h : HeaderMap, countHeader n (removeHeader m h) = countHeader n h
  | [] => rfl
  | (k, v) :: rest => by
      have ih := countHeader_removeHeader_ne n m hnm rest
      by_cases hk : (k == m) = true
      · have hkn : (k == n) = false := by
          have : k = m := by simpa using hk
          subst this
          exact hnm
        simp_all [removeHeader, countHeader, bne]
      · simp only [Bool.not_eq_true] at hk
        by_cases hkn : (k == n) = true <;>
          simp_all [removeHeader, countHeader, bne]

theorem lookupHeader_setHeader_self (n v : String) :
    ∀ h : HeaderMap, lookupHeader n (setHeader n v h) = some v
  | [] => by simp [setHeader, removeHeader, lookupHeader]
  | (k, u) :: rest => by
      have ih := lookupHeader_setHeader_self n v rest
      by_cases hk : (k == n) = true
      · simp_all [setHeader, removeHeader, lookupHeader, bne]
      · simp only [Bool.not_eq_true] at hk
        simp_all [setHeader, removeHeader, lookupHeader, bne]

theorem lookupHeader_setHeader_ne (n m v : String) (hnm : (m == n) = false) :
    ∀ h : HeaderMap, lookupHeader n (setHeader m v h) = lookupHeader n h
  | [] => by simp [setHeader, removeHeader, lookupHeader, hnm]
  | (k, u) :: rest => by
      have ih := lookupHeader_setHeader_ne n m v hnm rest
      by_cases hk : (k == m) = true
      · have hkn : (k == n) = false := by
          have : k = m := by simpa using hk
          subst this
          exact hnm
        simp_all [setHeader, removeHeader, lookupHeader, bne]
      · simp only [Bool.not_eq_true] at hk
        by_cases hkn : (k == n) = true <;>
          simp_all [setHeader, removeHeader, lookupHeader, bne]

theorem lookupHeader_removeHeader_self (n : String) :
    ∀ h : HeaderMap, lookupHeader n (removeHeader n h) = none
  | [] => rfl
  | (k, v) :: rest => by
      have ih := lookupHeader_removeHeader_self n rest
      by_cases hk : (k == n) = true
      · simp_all [removeHeader, lookupHeader, bne]
      · simp only [Bool.not_eq_true] at hk
        simp_all [removeHeader, lookupHeader, bne]

theorem limiterAdmit_count_le (s : LimiterClientState) (t : Nat)
    (h : s.count ≤ cspLimiterMax) :
    ((limiterAdmit s t).1).count ≤ cspLimiterMax := by
  by_cases hw : s.windowStart + cspLimiterWindowMs ≤ t
  · simp [limiterAdmit, hw, cspLimiterMax]
  · by_cases hc : s.count < cspLimiterMax
    · simp [limiterAdmit, hw, hc]
      omega
    · simp [limiterAdmit, hw, hc]
      exact h

theorem stepOp_preserves_sum (s : ViolationStats) (op : ServerOp)
    (h : s.total = sumCounts s.byDirective) :
    (stepOp s op).total = sumCounts (stepOp s op).byDirective := by
  cases op with
  | record v =>
      simp only [stepOp, logViolation]
      rw [sumCounts_record, h]
  | flushTick =>
      simp only [stepOp, flushViolationStats]
      by_cases ht : s.total > 0
      · simp [ht, violationStats0, sumCounts]
      · simp only [ht, if_false]
        exact h

theorem foldl_stepOp_preserves_sum :
    ∀ (ops : List ServerOp) (s : ViolationStats),
      s.total = sumCounts s.byDirective →
      (List.foldl stepOp s ops).total =
        sumCounts (List.foldl stepOp s ops).byDirective
  | [], _, h => h
  | op :: ops, s, h =>
      foldl_stepOp_preserves_sum ops (stepOp s op) (stepOp_preserves_sum s op h)

/-- C1: a POST to the report endpoint whose JSON body carries a nested
object under `csp-report` or `csp_report` (and passed the rate limiter) is
answered 204 with no body, the aggregate total grows by exactly one, and
the counter of the report's violated directive grows by exactly one. -/
theorem cspReport_valid_increments (body : Json) (s : ViolationStats)
    (h : hasNestedReportObject body = true) :
    (handleCspReport body s).1.status = 204 ∧
    (handleCspReport body s).1.body = none ∧
    (handleCspReport body s).2.total = s.total + 1 ∧
    mapGet (directiveOf body) (handleCspReport body s).2.byDirective =
      some ((mapGet (directiveOf body) s.byDirective).getD 0 + 1) := by
  have hv := validateCSPReport_of_nested body h
  simp [handleCspReport, hv, logViolation, mapGet_mapSet_self]

/-- C1 witness: the spec's example body increments the total and the
`script-src` counter from the initial aggregate to one each. -/
theorem cspReport_valid_increments_witness :
    hasNestedReportObject bodyScriptSrc = true ∧
    (handleCspReport bodyScriptSrc violationStats0).1.status = 204 ∧
    (handleCspReport bodyScriptSrc violationStats0).1.body = none ∧
    (handleCspReport bodyScriptSrc violationStats0).2.total = 1 ∧
    mapGet (Json.str "script-src")
      (handleCspReport bodyScriptSrc violationStats0).2.byDirective =
      some 1 := by
  have h := cspReport_valid_increments bodyScriptSrc violationStats0 (by decide)
  have hd : directiveOf bodyScriptSrc = Json.str "script-src" := rfl
  refine ⟨by decide, h.1, h.2.1, h.2.2.1, ?_⟩
  have h4 := h.2.2.2
  rw [hd] at h4
  exact h4

/-- C2 counterexample: `\x7b"csp-report":[]\x7d` carries no nested object
under the report keys (its value is an array), yet the handler answers 204
and the aggregate total changes from 0 to 1, where the claim predicts a
400 response and an unchanged aggregate. -/
theorem cspReport_nonobject_accepted_cex :
    hasNestedReportObject cspArrayBody = false ∧
    validateCSPReport cspArrayBody = true ∧
    (handleCspReport cspArrayBody violationStats0).1.status = 204 ∧
    (handleCspReport cspArrayBody violationStats0).2.total = 1 := by
  decide

/-- C2 (amended): every POST body rejected by `validateCSPReport` — no
truthy object-typed value under `csp-report` or `csp_report` — is answered
400 with the error payload and leaves the Violation Aggregate
unchanged. -/
theorem cspReport_invalid_rejected (body : Json) (s : ViolationStats)
    (h : validateCSPReport body = false) :
    (handleCspReport body s).1.status = 400 ∧
    (handleCspReport body s).1.body =
      some (Json.obj [("error", Json.str "invalid csp report")]) ∧
    (handleCspReport body s).2 = s := by
  simp [handleCspReport, h]

/-- C2 witness: the spec's example body `\x7b"foo":"bar"\x7d` gets the 400
error response and the aggregate is unchanged. -/
theorem cspReport_invalid_rejected_witness :
    (handleCspReport fooBarBody violationStats0).1.status = 400 ∧
    (handleCspReport fooBarBody violationStats0).1.body =
      some (Json.obj [("error", Json.str "invalid csp report")]) ∧
    (handleCspReport fooBarBody violationStats0).2 = violationStats0 :=
  cspReport_invalid_rejected fooBarBody violationStats0 (by decide)

/-- C3: after the CSP middleware runs, the response carries exactly one
`Content-Security-Policy` header and no
`Content-Security-Policy-Report-Only` header, whatever headers were
present before. -/
theorem csp_header_single_mode (h : HeaderMap) :
    countHeader "Content-Security-Policy" (applyCspMiddleware h) = 1 ∧
    countHeader "Content-Security-Policy-Report-Only"
      (applyCspMiddleware h) = 0 := by
  constructor
  · simp only [applyCspMiddleware, setHeader, countHeader_append]
    rw [countHeader_removeHeader_self]
    simp [countHeader]
  · simp only [applyCspMiddleware, setHeader, countHeader_append]
    rw [countHeader_removeHeader_ne _ _ (by decide),
      countHeader_removeHeader_self]
    simp [countHeader]

set_option maxRecDepth 20000 in
/-- C4 counterexample: the directive-name list of the policy built by the
middleware is not the spec's sixteen-name list — the source also emits
`child-src 'none'`, whose name is absent from the spec's list. -/
theorem cspDirectives_list_cex :
    cspDirectives.map directiveName ≠ specDirectiveNames ∧
    (cspDirectives.map directiveName).contains "child-src" = true ∧
    specDirectiveNames.contains "child-src" = false := by
  decide

set_option maxRecDepth 20000 in
/-- C4 (amended): the policy string is the join of the fixed ordered
seventeen-directive list of the source — the spec's sixteen names with
`child-src` inserted between `upgrade-insecure-requests` and
`trusted-types` — with `report-uri` pointing at `/__cspreport__`, and the
middleware sets exactly this string as the `Content-Security-Policy`
value. -/
theorem cspDirectives_policy_value :
    cspDirectives.map directiveName =
      [ "default-src", "base-uri", "object-src", "img-src", "font-src"
      , "style-src", "script-src", "connect-src", "worker-src", "media-src"
      , "form-action", "frame-ancestors", "manifest-src"
      , "upgrade-insecure-requests", "child-src", "trusted-types"
      , "report-uri" ] ∧
    cspDirectives.contains "report-uri /__cspreport__" = true ∧
    cspPolicy = "default-src 'self'; base-uri 'self'; object-src 'none'; img-src 'self' data: blob:; font-src 'self' data:; style-src 'self' 'unsafe-inline'; script-src 'self'; connect-src 'self'; worker-src 'self' blob:; media-src 'self' blob:; form-action 'self'; frame-ancestors 'none'; manifest-src 'self'; upgrade-insecure-requests; child-src 'none'; trusted-types vue; report-uri /__cspreport__" ∧
    lookupHeader "Content-Security-Policy" (applyCspMiddleware []) =
      some cspPolicy := by
  decide

set_option maxRecDepth 20000 in
/-- C5: under the modelled fixed-window limiter with the source's
configuration (15-minute window, quota 100), the first 100 same-window
reports of a client are admitted, the 101st is rejected, the rejection
response carries the standard rate-limit headers, and a report arriving
one full window later is admitted again; the window count never exceeds
the quota. -/
theorem cspLimiter_window_quota :
    (∀ n : Nat, (limiterRun 0 n).count ≤ cspLimiterMax) ∧
    (limiterAdmit (limiterRun 0 99) 0).2 = true ∧
    (limiterRun 0 100).count = cspLimiterMax ∧
    (limiterAdmit (limiterRun 0 100) 0).2 = false ∧
    (limiterAdmit (limiterRun 0 100) cspLimiterWindowMs).2 = true ∧
    rateLimitRejectionHeaders.contains "RateLimit-Limit" = true := by
  refine ⟨?_, by decide, by decide, by decide, by decide, by decide⟩
  intro n
  induction n with
  | zero => simp [limiterRun, limiterInit, cspLimiterMax]
  | succ n ih => exact limiterAdmit_count_le _ _ ih

/-- C6: when the hourly flush timer fires with a positive total, exactly
one summary carrying the total and the per-directive breakdown is emitted
and both counters are reset; with a zero total nothing is emitted and the
aggregate is unchanged. -/
theorem flush_timer_behavior (s : ViolationStats) :
    (0 < s.total →
      flushViolationStats s =
        (violationStats0, some ⟨s.total, s.byDirective⟩)) ∧
    (s.total = 0 → flushViolationStats s = (s, none)) := by
  constructor
  · intro h
    simp [flushViolationStats, h]
  · intro h
    simp [flushViolationStats, h]

/-- C6 witness: a two-violation aggregate flushes to the reset state with
its summary emitted; the empty aggregate flushes to itself with nothing
emitted. -/
theorem flush_timer_behavior_witness :
    flushViolationStats ⟨2, [(Json.str "script-src", 2)]⟩ =
      (violationStats0, some ⟨2, [(Json.str "script-src", 2)]⟩) ∧
    flushViolationStats violationStats0 = (violationStats0, none) :=
  ⟨(flush_timer_behavior ⟨2, [(Json.str "script-src", 2)]⟩).1 (by decide),
   (flush_timer_behavior violationStats0).2 rfl⟩

/-- C7: a static response for `index.html` carries the uncacheable header
set (`Cache-Control` including `no-store`, `Pragma: no-cache`,
`Expires: 0`); every other static asset carries the one-day cache
header. -/
theorem static_cache_policy (p : String) :
    (fileBase p = "index.html" →
      lookupHeader "Cache-Control" (staticHeaders p) =
        some "no-store, no-cache, must-revalidate, proxy-revalidate" ∧
      lookupHeader "Pragma" (staticHeaders p) = some "no-cache" ∧
      lookupHeader "Expires" (staticHeaders p) = some "0") ∧
    (fileBase p ≠ "index.html" →
      lookupHeader "Cache-Control" (staticHeaders p) =
        some cacheControlOneDay) := by
  constructor
  · intro h
    have hb : (fileBase p == "index.html") = true := by simp [h]
    simp only [staticHeaders, hb, if_true]
    decide
  · intro h
    have hb : (fileBase p == "index.html") = false := by simp [h]
    simp only [staticHeaders, hb, Bool.false_eq_true, if_false]
    decide

/-- C7 witness: a concrete `index.html` path gets the no-store header and
a concrete hashed asset path gets the one-day header. -/
theorem static_cache_policy_witness :
    lookupHeader "Cache-Control" (staticHeaders "/srv/dist/spa/index.html") =
      some "no-store, no-cache, must-revalidate, proxy-revalidate" ∧
    lookupHeader "Cache-Control"
      (staticHeaders "/srv/dist/spa/assets/app.9f3c.js") =
      some cacheControlOneDay :=
  ⟨((static_cache_policy "/srv/dist/spa/index.html").1 (by decide)).1,
   (static_cache_policy "/srv/dist/spa/assets/app.9f3c.js").2 (by decide)⟩

set_option maxRecDepth 20000 in
/-- C8 counterexample: the middleware emits the policy under the enforcing
header unconditionally — there is no configuration input; even a response
that already carries a report-only header ends up with the enforcing
header only, so no configuration emits the policy under the report-only
header. -/
theorem csp_reportOnly_never_emitted_cex :
    lookupHeader "Content-Security-Policy-Report-Only"
      (applyCspMiddleware
        [("Content-Security-Policy-Report-Only", cspPolicy)]) = none ∧
    lookupHeader "Content-Security-Policy"
      (applyCspMiddleware
        [("Content-Security-Policy-Report-Only", cspPolicy)]) =
      some cspPolicy := by
  decide

/-- C8 (amended): the policy is always emitted under the enforcing
`Content-Security-Policy` header; the middleware removes any
`Content-Security-Policy-Report-Only` header and no configuration selects
report-only mode. -/
theorem csp_always_enforcing (h : HeaderMap) :
    lookupHeader "Content-Security-Policy" (applyCspMiddleware h) =
      some cspPolicy ∧
    lookupHeader "Content-Security-Policy-Report-Only"
      (applyCspMiddleware h) = none := by
  constructor
  · exact lookupHeader_setHeader_self _ _ _
  · rw [applyCspMiddleware,
      lookupHeader_setHeader_ne _ _ _ (by decide),
      lookupHeader_removeHeader_self]

/-- C9: the Violation Aggregate invariant — after any sequence of
recording and flush operations from the initial aggregate, the total
equals the sum of the per-directive counters. -/
theorem violation_aggregate_invariant (ops : List ServerOp) :
    (List.foldl stepOp violationStats0 ops).total =
      sumCounts (List.foldl stepOp violationStats0 ops).byDirective :=
  foldl_stepOp_preserves_sum ops violationStats0 rfl

/-- C10: a POST whose body carries a nested report object under the
recognized keys but whose selected report has no `violated-directive`
field is still answered 204, and the violation is counted under the
directive name `unknown`. -/
theorem cspReport_missing_directive_unknown (body : Json)
    (s : ViolationStats)
    (h1 : hasNestedReportObject body = true)
    (h2 : jsGet (selectReport body) "violated-directive" = none) :
    (handleCspReport body s).1.status = 204 ∧
    mapGet (Json.str "unknown") (handleCspReport body s).2.byDirective =
      some ((mapGet (Json.str "unknown") s.byDirective).getD 0 + 1) := by
  have hv := validateCSPReport_of_nested body h1
  have hd : directiveOf body = Json.str "unknown" := by
    simp [directiveOf, jsGetTruthy, h2]
  constructor
  · simp [handleCspReport, hv]
  · simp only [handleCspReport, hv, Bool.true_eq_false, if_false,
      logViolation, hd]
    exact mapGet_mapSet_self _ _ _

/-- C10 witness: the body with an empty nested report object is answered
204 and the `unknown` counter rises from 0 to 1. -/
theorem cspReport_missing_directive_unknown_witness :
    hasNestedReportObject emptyReportBody = true ∧
    (handleCspReport emptyReportBody violationStats0).1.status = 204 ∧
    mapGet (Json.str "unknown")
      (handleCspReport emptyReportBody violationStats0).2.byDirective =
      some 1 := by
  have h := cspReport_missing_directive_unknown emptyReportBody
    violationStats0 (by decide) rfl
  exact ⟨by decide, h.1, h.2⟩
